import Mathlib

/-!
Verification of `breath_holder_signposting.py`: a four-way classifier of a
breath-holding duration plus a gauge-chart configuration, as shallowly
embedded Lean functions.  `get_category_info`, `category_id` (the ordinal of
the record `get_category_info` returns), `create_gauge_chart` and
`balloons_shown` (the celebration condition of `main`) are translated
branch-for-branch from the Python source.
-/

/-- The dictionary returned by each branch of `get_category_info`. -/
structure CategoryRecord where
  category : String
  color : String
  description : String
  recommendations : List String
  nhs_links : List (String × String)
deriving DecidableEq

/-- The dictionary of the `seconds < 30` branch. -/
def categoryRecord1 : CategoryRecord :=
  { category := "Category 1: Initial Assessment Required"
    color := "#FF9999"
    description := "Your breath-holding capacity suggests that further assessment might be beneficial."
    recommendations :=
      [ "Schedule a GP appointment for respiratory assessment"
      , "Start with very gentle breathing exercises"
      , "Monitor your daily breathing patterns" ]
    nhs_links :=
      [ ("NHS - Breathing Exercises for Stress", "https://www.nhs.uk/mental-health/self-help/guides-tools-and-activities/breathing-exercises-for-stress/")
      , ("NHS - When to see a GP", "https://www.nhs.uk/conditions/shortness-of-breath/")
      , ("NHS - Breathing Difficulty", "https://www.nhs.uk/conditions/breathing-difficulty/") ] }

/-- The dictionary of the `30 <= seconds <= 60` branch. -/
def categoryRecord2 : CategoryRecord :=
  { category := "Category 2: Developing Capacity"
    color := "#99FF99"
    description := "You have a developing breath-holding capacity. Regular practice can help improve this."
    recommendations :=
      [ "Practice regular breathing exercises"
      , "Consider lifestyle factors that might affect breathing"
      , "Monitor progress weekly" ]
    nhs_links :=
      [ ("NHS - Physical Activity Guidelines", "https://www.nhs.uk/live-well/exercise/")
      , ("NHS - Fitness Studio Exercise Videos", "https://www.nhs.uk/conditions/nhs-fitness-studio/")
      , ("NHS - Better Health", "https://www.nhs.uk/better-health/") ] }

/-- The dictionary of the `61 <= seconds <= 150` branch. -/
def categoryRecord3 : CategoryRecord :=
  { category := "Category 3: Good Capacity"
    color := "#99CCFF"
    description := "Your breath-holding capacity is good, showing effective breathing control."
    recommendations :=
      [ "Maintain current breathing practices"
      , "Consider incorporating advanced techniques"
      , "Focus on consistency in practice" ]
    nhs_links :=
      [ ("NHS - Fitness Tips", "https://www.nhs.uk/live-well/exercise/fitness-tips/")
      , ("NHS - Running Tips", "https://www.nhs.uk/live-well/exercise/running-tips-for-beginners/")
      , ("NHS - Health Benefits of Swimming", "https://www.nhs.uk/live-well/exercise/swimming-for-fitness/") ] }

/-- The dictionary of the final `else` branch. -/
def categoryRecord4 : CategoryRecord :=
  { category := "Category 4: Advanced Capacity"
    color := "#FFCC99"
    description := "You demonstrate advanced breath-holding capacity. Your level indicates excellent respiratory control."
    recommendations :=
      [ "Maintain this excellent level"
      , "Consider advanced breathing techniques"
      , "Share your expertise with others" ]
    nhs_links :=
      [ ("NHS - Exercise Health Benefits", "https://www.nhs.uk/live-well/exercise/exercise-health-benefits/")
      , ("NHS - Get Active Your Way", "https://www.nhs.uk/live-well/exercise/get-active-your-way/")
      , ("NHS - Fitness Studio", "https://www.nhs.uk/conditions/nhs-fitness-studio/") ] }

/-- The four category dictionaries in branch order. -/
def category_records : List CategoryRecord :=
  [categoryRecord1, categoryRecord2, categoryRecord3, categoryRecord4]

/-- `get_category_info(seconds)`: the classifier, branch for branch.
Python's chained comparisons `30 <= seconds <= 60` and `61 <= seconds <= 150`
become conjunctions; the integer argument is modelled as `Int` because Python
integers are unbounded and may be negative. -/
def get_category_info (seconds : Int) : CategoryRecord :=
  if seconds < 30 then categoryRecord1
  else if 30 ≤ seconds ∧ seconds ≤ 60 then categoryRecord2
  else if 61 ≤ seconds ∧ seconds ≤ 150 then categoryRecord3
  else categoryRecord4

/-- The ordinal (1..4) of the branch of `get_category_info` that fires:
same guards, same order. -/
def category_id (seconds : Int) : Nat :=
  if seconds < 30 then 1
  else if 30 ≤ seconds ∧ seconds ≤ 60 then 2
  else if 61 ≤ seconds ∧ seconds ≤ 150 then 3
  else 4

/-- The guard of branch `k` of `get_category_info`, as written in the source:
three explicit range tests and a trailing `else`. -/
def branch_cond (k : Nat) (s : Int) : Prop :=
  match k with
  | 1 => s < 30
  | 2 => 30 ≤ s ∧ s ≤ 60
  | 3 => 61 ≤ s ∧ s ≤ 150
  | 4 => ¬(s < 30) ∧ ¬(30 ≤ s ∧ s ≤ 60) ∧ ¬(61 ≤ s ∧ s ≤ 150)
  | _ => False

instance (k : Nat) (s : Int) : Decidable (branch_cond k s) := by
  unfold branch_cond
  match k with
  | 0 => exact inferInstanceAs (Decidable False)
  | 1 => exact inferInstanceAs (Decidable (_ < _))
  | 2 => exact inferInstanceAs (Decidable (_ ∧ _))
  | 3 => exact inferInstanceAs (Decidable (_ ∧ _))
  | 4 => exact inferInstanceAs (Decidable (_ ∧ _ ∧ _))
  | (n + 5) => exact inferInstanceAs (Decidable False)

/-- The record of branch `k`, in source order. -/
def record_for (k : Nat) : CategoryRecord :=
  match k with
  | 1 => categoryRecord1
  | 2 => categoryRecord2
  | 3 => categoryRecord3
  | _ => categoryRecord4

/-- One entry of the `steps` list of the gauge dictionary. -/
structure GaugeStep where
  rangeLo : Int
  rangeHi : Int
  color : String
deriving DecidableEq

/-- The gauge configuration built by `create_gauge_chart`: the fields of the
`go.Indicator` dictionary that carry data (mode, value, title text, axis
range, bar color, steps).  The axis lower bound is `None` in the source, so it
is an `Option Int` here. -/
structure GaugeSpec where
  mode : String
  value : Int
  titleText : String
  axisRangeLo : Option Int
  axisRangeHi : Int
  barColor : String
  steps : List GaugeStep
deriving DecidableEq

/-- `create_gauge_chart(value)`, field for field from the source dictionary. -/
def create_gauge_chart (value : Int) : GaugeSpec :=
  { mode := "gauge+number"
    value := value
    titleText := "Seconds"
    axisRangeLo := none
    axisRangeHi := 180
    barColor := "#1E88E5"
    steps :=
      [ { rangeLo := 0, rangeHi := 30, color := "#FF9999" }
      , { rangeLo := 30, rangeHi := 60, color := "#99FF99" }
      , { rangeLo := 60, rangeHi := 150, color := "#99CCFF" }
      , { rangeLo := 150, rangeHi := 180, color := "#FFCC99" } ] }

/-- `s` lies in the `k`-th colored step (1-based) of gauge `g`: within the
closed range `[rangeLo, rangeHi]` of that step. -/
def in_band (g : GaugeSpec) (k : Nat) (s : Int) : Bool :=
  match g.steps.get? (k - 1) with
  | some st => decide (st.rangeLo ≤ s) && decide (s ≤ st.rangeHi)
  | none => false

/-- The celebration condition of `main`: the gauge-and-results column runs
only when `seconds > 0`, and inside it `st.balloons()` fires exactly when the
category string of the classifier result is one of the two top labels. -/
def balloons_shown (seconds : Int) : Bool :=
  if 0 < seconds then
    ["Category 3: Good Capacity", "Category 4: Advanced Capacity"].contains
      (get_category_info seconds).category
  else false

/-- Modelled from the spec: the plotly rendering of the gauge axis is not part
of this repository; per the spec the axis range is fixed at `[0, 180]`, i.e. a
`None` lower bound renders as 0. -/
def rendered_axis_lo (g : GaugeSpec) : Int :=
  g.axisRangeLo.getD 0

/-- Modelled from the spec: the plotly rendering of the gauge bar is not part
of this repository; per the spec values above the axis maximum are visually
clipped to the top of the axis. -/
def rendered_bar_top (g : GaugeSpec) : Int :=
  min g.value g.axisRangeHi

/-- Modelled from the spec: the plotly rendering of the numeric label is not
part of this repository; per the spec the numeric label echoes the raw input
value even when the bar is clipped. -/
def rendered_number (g : GaugeSpec) : Int :=
  g.value

lemma in_band_step0 (s : Int) :
    in_band (create_gauge_chart s) 0 s = (decide (0 ≤ s) && decide (s ≤ 30)) := rfl

lemma in_band_step1 (s : Int) :
    in_band (create_gauge_chart s) 1 s = (decide (0 ≤ s) && decide (s ≤ 30)) := rfl

lemma in_band_step2 (s : Int) :
    in_band (create_gauge_chart s) 2 s = (decide (30 ≤ s) && decide (s ≤ 60)) := rfl

lemma in_band_step3 (s : Int) :
    in_band (create_gauge_chart s) 3 s = (decide (60 ≤ s) && decide (s ≤ 150)) := rfl

lemma in_band_step4 (s : Int) :
    in_band (create_gauge_chart s) 4 s = (decide (150 ≤ s) && decide (s ≤ 180)) := rfl

lemma in_band_step_ge5 (s : Int) (k : Nat) :
    in_band (create_gauge_chart s) (k + 5) s = false := rfl

/-- C1: for every integer `s` in `[0, 300]` exactly one of the four branch
guards of `get_category_info` holds, and the classifier returns that branch's
record: the four branches are mutually exclusive and collectively exhaustive
over the domain, with the top-down first match winning. -/
theorem classifier_exclusive_exhaustive :
    ∀ s : Int, 0 ≤ s → s ≤ 300 →
      ∃! k : Nat, branch_cond k s ∧ get_category_info s = record_for k := by
  intro s h0 h300
  refine ⟨category_id s, ⟨?_, ?_⟩, ?_⟩
  · unfold branch_cond category_id
    split_ifs with h1 h2 h3 <;> simp only [] <;> omega
  · unfold get_category_info category_id record_for
    split_ifs <;> rfl
  · rintro k ⟨hb, -⟩
    unfold category_id
    rcases k with _ | _ | _ | _ | _ | n
    · exact absurd hb (by simp [branch_cond])
    · simp only [branch_cond] at hb; split_ifs; all_goals omega
    · simp only [branch_cond] at hb; split_ifs; all_goals omega
    · simp only [branch_cond] at hb; split_ifs; all_goals omega
    · simp only [branch_cond] at hb; split_ifs; all_goals omega
    · exact absurd hb (by simp [branch_cond])

theorem classifier_exclusive_exhaustive_witness :
    (0 : Int) ≤ 45 ∧ (45 : Int) ≤ 300 ∧
      ∃! k : Nat, branch_cond k 45 ∧ get_category_info 45 = record_for k :=
  ⟨by decide, by decide, classifier_exclusive_exhaustive 45 (by decide) (by decide)⟩

/-- C3: the boundary seconds each resolve to exactly one category under the
code's convention: 29 is category 1, 30 is category 2, 60 is category 2
(the `30 <= seconds <= 60` branch), and 150 is category 3. -/
theorem boundary_convention_pinned :
    get_category_info 29 = categoryRecord1 ∧ category_id 29 = 1 ∧
    get_category_info 30 = categoryRecord2 ∧ category_id 30 = 2 ∧
    get_category_info 60 = categoryRecord2 ∧ category_id 60 = 2 ∧
    get_category_info 150 = categoryRecord3 ∧ category_id 150 = 3 :=
  ⟨rfl, rfl, rfl, rfl, rfl, rfl, rfl, rfl⟩

/-- C6: input 45 classifies as the mid-range category 2 ("Developing
Capacity"), the gauge bar is at value 45 on an axis topping out at 180, and
no celebration fires. -/
theorem example_input_45 :
    get_category_info 45 = categoryRecord2 ∧
    (get_category_info 45).category = "Category 2: Developing Capacity" ∧
    category_id 45 = 2 ∧
    (create_gauge_chart 45).value = 45 ∧
    (create_gauge_chart 45).axisRangeHi = 180 ∧
    balloons_shown 45 = false :=
  ⟨rfl, rfl, rfl, rfl, rfl, rfl⟩

/-- C7: the classifier is total over `[0, 300]`: every input returns one of
the four category records; the embedding is a plain total function because the
source has no raise, no error branch and no side effect. -/
theorem classifier_total_on_domain :
    ∀ s : Int, 0 ≤ s → s ≤ 300 → get_category_info s ∈ category_records := by
  intro s h0 h300
  unfold get_category_info category_records
  split_ifs <;> simp

theorem classifier_total_on_domain_witness :
    (0 : Int) ≤ 45 ∧ (45 : Int) ≤ 300 ∧ get_category_info 45 ∈ category_records :=
  ⟨by decide, by decide, classifier_total_on_domain 45 (by decide) (by decide)⟩

/-- C8: both functions are deterministic pure functions of their argument:
equal inputs give identical outputs. -/
theorem classifier_and_gauge_deterministic :
    ∀ s t : Int, s = t →
      get_category_info s = get_category_info t ∧
        create_gauge_chart s = create_gauge_chart t := by
  intro s t h
  subst h
  exact ⟨rfl, rfl⟩

theorem classifier_and_gauge_deterministic_witness :
    (45 : Int) = 45 ∧
      (get_category_info 45 = get_category_info 45 ∧
        create_gauge_chart 45 = create_gauge_chart 45) :=
  ⟨rfl, classifier_and_gauge_deterministic 45 45 rfl⟩

/-- C9: every negative input hits the first branch (`seconds < 30`) and
returns the Category 1 record: the classifier is total below the declared
domain as well. -/
theorem negative_input_category1 :
    ∀ s : Int, s < 0 → get_category_info s = categoryRecord1 ∧ category_id s = 1 := by
  intro s hneg
  have h : s < 30 := by omega
  constructor
  · unfold get_category_info; rw [if_pos h]
  · unfold category_id; rw [if_pos h]

theorem negative_input_category1_witness :
    (-5 : Int) < 0 ∧
      (get_category_info (-5) = categoryRecord1 ∧ category_id (-5) = 1) :=
  ⟨by decide, negative_input_category1 (-5) (by decide)⟩

/-- C10: every record the classifier can return has exactly three
recommendations and exactly three reference links, and the four records have
pairwise distinct category labels and pairwise distinct colors. -/
theorem record_shape_and_distinctness :
    (∀ s : Int, (get_category_info s).recommendations.length = 3 ∧
        (get_category_info s).nhs_links.length = 3 ∧
        get_category_info s ∈ category_records) ∧
    category_records.Pairwise (fun a b => a.category ≠ b.category) ∧
    category_records.Pairwise (fun a b => a.color ≠ b.color) := by
  refine ⟨?_, by decide, by decide⟩
  intro s
  unfold get_category_info
  split_ifs <;> exact ⟨rfl, rfl, by simp [category_records]⟩

/-- C5: for inputs in `(0, 300]` the balloons fire exactly when the
classifier's record is category 3 or category 4. -/
theorem celebration_iff_top_categories :
    ∀ s : Int, 0 < s → s ≤ 300 →
      (balloons_shown s = true ↔ category_id s = 3 ∨ category_id s = 4) := by
  intro s h0 h300
  unfold balloons_shown get_category_info category_id
  rw [if_pos h0]
  split_ifs with h1 h2 h3
  all_goals decide

theorem celebration_iff_top_categories_witness :
    (0 : Int) < 100 ∧ (100 : Int) ≤ 300 ∧
      (balloons_shown 100 = true ↔ category_id 100 = 3 ∨ category_id 100 = 4) :=
  ⟨by decide, by decide, celebration_iff_top_categories 100 (by decide) (by decide)⟩

/-- C4: for every input in `[0, 300]` the gauge's rendered axis spans
`[0, 180]` (the source fixes the upper bound at 180 and leaves the lower
bound to the library, which renders it as 0), the bar position and the
numeric label equal the input, and above 180 the bar is clipped to 180 while
the numeric label still shows the true input. -/
theorem gauge_axis_value_label :
    ∀ s : Int, 0 ≤ s → s ≤ 300 →
      rendered_axis_lo (create_gauge_chart s) = 0 ∧
      (create_gauge_chart s).axisRangeHi = 180 ∧
      (create_gauge_chart s).value = s ∧
      rendered_number (create_gauge_chart s) = s ∧
      (s ≤ 180 → rendered_bar_top (create_gauge_chart s) = s) ∧
      (180 < s → rendered_bar_top (create_gauge_chart s) = 180 ∧
        rendered_number (create_gauge_chart s) = s) := by
  intro s h0 h300
  refine ⟨rfl, rfl, rfl, rfl, ?_, ?_⟩
  · intro h
    show min s 180 = s
    exact min_eq_left h
  · intro h
    refine ⟨?_, rfl⟩
    show min s 180 = 180
    exact min_eq_right (by omega)

theorem gauge_axis_value_label_witness :
    (0 : Int) ≤ 200 ∧ (200 : Int) ≤ 300 ∧
      (rendered_axis_lo (create_gauge_chart 200) = 0 ∧
        (create_gauge_chart 200).axisRangeHi = 180 ∧
        (create_gauge_chart 200).value = 200 ∧
        rendered_number (create_gauge_chart 200) = 200 ∧
        ((200 : Int) ≤ 180 → rendered_bar_top (create_gauge_chart 200) = 200) ∧
        ((180 : Int) < 200 → rendered_bar_top (create_gauge_chart 200) = 180 ∧
          rendered_number (create_gauge_chart 200) = 200)) :=
  ⟨by decide, by decide, gauge_axis_value_label 200 (by decide) (by decide)⟩

/-- C2 counterexample: at input 30 the claimed equivalence fails: 30 lies in
the first gauge step `[0, 30]`, yet the classifier returns category 2, so
"s falls in gauge band k iff the category is k" is false at `s = 30`,
`k = 1`. -/
theorem gauge_band_mismatch_at_30 :
    in_band (create_gauge_chart 30) 1 30 = true ∧ category_id 30 = 2 :=
  ⟨rfl, rfl⟩

/-- C2 amended: the gauge steps reuse the classifier's threshold values
(0, 30, 60, 150, 180), and band membership matches the category everywhere it
can: for every integer `s` in `[0, 180]` other than the shared boundary
values 30, 60, 150, `s` lies in gauge band `k` iff the classifier returns
category `k`; each boundary value lies in the two adjacent closed steps that
meet there, one of which is its category; and every `s` above the 180 axis
maximum lies in no band at all. -/
theorem gauge_bands_align_off_boundaries :
    ∀ s : Int, 0 ≤ s → s ≤ 300 →
      ((s ≤ 180 ∧ s ≠ 30 ∧ s ≠ 60 ∧ s ≠ 150) →
        ∀ k : Nat, 1 ≤ k → k ≤ 4 →
          (in_band (create_gauge_chart s) k s = true ↔ category_id s = k)) ∧
      (180 < s → ∀ k : Nat, in_band (create_gauge_chart s) k s = false) ∧
      ((s = 30 ∨ s = 60 ∨ s = 150) →
        in_band (create_gauge_chart s) (category_id s) s = true ∧
        ∃ j : Nat, j ≠ category_id s ∧ in_band (create_gauge_chart s) j s = true) := by
  intro s h0 h300
  refine ⟨?_, ?_, ?_⟩
  · rintro ⟨h180, h30, h60, h150⟩ k hk1 hk4
    interval_cases k
    · rw [in_band_step1]
      simp only [Bool.and_eq_true, decide_eq_true_eq]
      unfold category_id
      split_ifs
      all_goals omega
    · rw [in_band_step2]
      simp only [Bool.and_eq_true, decide_eq_true_eq]
      unfold category_id
      split_ifs
      all_goals omega
    · rw [in_band_step3]
      simp only [Bool.and_eq_true, decide_eq_true_eq]
      unfold category_id
      split_ifs
      all_goals omega
    · rw [in_band_step4]
      simp only [Bool.and_eq_true, decide_eq_true_eq]
      unfold category_id
      split_ifs
      all_goals omega
  · intro h k
    have hb : ¬(s ≤ 30) := by omega
    have hb2 : ¬(s ≤ 60) := by omega
    have hb3 : ¬(s ≤ 150) := by omega
    have hb4 : ¬(s ≤ 180) := by omega
    rcases k with _ | _ | _ | _ | _ | n
    · rw [in_band_step0]; simp [hb]
    · rw [in_band_step1]; simp [hb]
    · rw [in_band_step2]; simp [hb2]
    · rw [in_band_step3]; simp [hb3]
    · rw [in_band_step4]; simp [hb4]
    · exact in_band_step_ge5 s n
  · rintro (rfl | rfl | rfl)
    · exact ⟨rfl, 1, by decide, rfl⟩
    · exact ⟨rfl, 3, by decide, rfl⟩
    · exact ⟨rfl, 4, by decide, rfl⟩

theorem gauge_bands_align_off_boundaries_witness :
    (in_band (create_gauge_chart 45) 2 45 = true ↔ category_id 45 = 2) ∧
    in_band (create_gauge_chart 200) 4 200 = false ∧
    in_band (create_gauge_chart 30) (category_id 30) 30 = true :=
  ⟨(gauge_bands_align_off_boundaries 45 (by decide) (by decide)).1
      (by refine ⟨by decide, by decide, by decide, by decide⟩) 2 (by decide) (by decide),
   (gauge_bands_align_off_boundaries 200 (by decide) (by decide)).2.1 (by decide) 4,
   ((gauge_bands_align_off_boundaries 30 (by decide) (by decide)).2.2 (Or.inl rfl)).1⟩
